import Mathlib

/-!
A shallow embedding of the `easm` assembler (`src/main.rs`) and proofs
about its lexing and emission pipeline.

The Rust program defines:
* `enum Op` with eight instruction tags and a catch-all `VALUE(String)`;
* `Op::from_str`, matching the all-uppercase and all-lowercase spellings
  of each mnemonic and falling back to `VALUE`;
* `Op::as_opcode`, a constant `u32` per tag (`VALUE` maps to `0`);
* `opcode_parser`, which concatenates two displayed values and parses the
  result back (instantiated at `u32` by `Parser::parse`);
* `Lexer::lex`, splitting the source into lines and whitespace-separated
  words and resolving each word;
* `Parser::parse`, a cursor loop over the token vector producing `Vec<u32>`.

Machine integers are modelled as `Nat` with the `u32` bound checked where
the Rust code can overflow (inside `str::parse::<u32>`); panics are
modelled as `Except.error`.
-/

namespace Easm

/-- The `Op` enum from `src/main.rs`. -/
inductive Op where
  | MSTORE
  | MLOAD
  | CREATE
  | EXTCODECOPY
  | PUSH1
  | POP
  | DUP1
  | SWAP1
  | VALUE (s : String)
  deriving DecidableEq, Repr

/-- `Op::from_str`: matches the exact all-uppercase or all-lowercase
spelling of each mnemonic and resolves every other word to `VALUE`.
The Rust signature returns `Result<Self, Box<dyn Error>>` and every
branch returns `Ok`, modelled by `Except String Op`. -/
def Op.from_str (s : String) : Except String Op :=
  if s = "MSTORE" ∨ s = "mstore" then .ok .MSTORE
  else if s = "MLOAD" ∨ s = "mload" then .ok .MLOAD
  else if s = "CREATE" ∨ s = "create" then .ok .CREATE
  else if s = "EXTCODECOPY" ∨ s = "extcodecopy" then .ok .EXTCODECOPY
  else if s = "PUSH1" ∨ s = "push1" then .ok .PUSH1
  else if s = "POP" ∨ s = "pop" then .ok .POP
  else if s = "DUP1" ∨ s = "dup1" then .ok .DUP1
  else if s = "SWAP1" ∨ s = "swap1" then .ok .SWAP1
  else .ok (.VALUE s)

/-- `Op::as_opcode`: the constant `u32` attached to each tag.  The Rust
source writes `MSTORE => 52`, `MLOAD => 51`, `CREATE => 0xF0`,
`EXTCODECOPY => 0x3C`, `PUSH1 => 60`, `POP => 50`, `DUP1 => 80`,
`SWAP1 => 90` and `_ => 0` (the `VALUE` case). -/
def Op.as_opcode : Op → Nat
  | .MSTORE => 52
  | .MLOAD => 51
  | .CREATE => 0xF0
  | .EXTCODECOPY => 0x3C
  | .PUSH1 => 60
  | .POP => 50
  | .DUP1 => 80
  | .SWAP1 => 90
  | .VALUE _ => 0

/-- `str::trim_start_matches("0x")` on the character list: repeatedly
removes a leading `"0x"`. -/
def trimStart0xList : List Char → List Char
  | '0' :: 'x' :: rest => trimStart0xList rest
  | l => l

/-- `str::trim_start_matches("0x")` on strings. -/
def trimStart0x (s : String) : String :=
  String.mk (trimStart0xList s.data)

/-- Value accumulated by a decimal digit fold (`'0'` has code 48). -/
def digitsToNat (l : List Char) : Nat :=
  l.foldl (fun acc c => acc * 10 + (c.toNat - 48)) 0

/-- Rust `str::parse::<u32>`: an optional leading `'+'`, then a nonempty
run of ASCII decimal digits, value below `2 ^ 32`; anything else is a
parse error (`none`). -/
def rustParseU32 (s : String) : Option Nat :=
  let ds : List Char := match s.data with
    | '+' :: rest => rest
    | l => l
  if ds.isEmpty then none
  else if ds.all Char.isDigit then
    if digitsToNat ds < 2 ^ 32 then some (digitsToNat ds) else none
  else none

/-- `opcode_parser::<String, u32>` from the source (named `opcode_parser`
in Rust): formats `"{}{}"` of the two arguments and parses the result as
`u32`; the `.unwrap()` panic on a failed parse is the `none` case,
handled at the call site. -/
def opcodeParser (opcode value : String) : Option Nat :=
  rustParseU32 (opcode ++ value)

/-- `Parser::parse`, rewritten as structural recursion over the token
list.  One loop iteration of the Rust code advances the cursor twice
(once in the `while let Some(token) = self.next()` header and once via
the `self.next()` at the end of each match arm), so each iteration
consumes the head token plus the token after it:

* `PUSH1` head: the following token must exist (`panic!("PANICED")`
  otherwise) and be a `VALUE` (`panic!("PANIC {:?}", ..)` otherwise); its
  payload is `0x`-trimmed, concatenated after `"60"` and parsed as `u32`
  (`unwrap` panic on failure), pushing a single combined entry;
* any other head: push `as_opcode` of the head and skip the token that
  follows it. -/
def parse : List Op → Except String (List Nat)
  | [] => .ok []
  | .PUSH1 :: rest =>
    match rest with
    | [] => .error "PANICED"
    | nextToken :: rest' =>
      match nextToken with
      | .VALUE val =>
        match opcodeParser (Nat.repr Op.PUSH1.as_opcode) (trimStart0x val) with
        | some code => (parse rest').map (fun r => code :: r)
        | none => .error "unwrap on ParseIntError"
      | _ => .error "PANIC"
  | t :: rest =>
    match rest with
    | [] => .ok [t.as_opcode]
    | _ :: rest' => (parse rest').map (fun r => t.as_opcode :: r)

/-- The inner loop of `Lexer::lex`: resolve each word through
`Op::from_str`, pushing the token on `Ok` and panicking on `Err`
(modelled as error propagation). -/
def lexWords : List String → Except String (List Op)
  | [] => .ok []
  | w :: ws =>
    match Op.from_str w with
    | .ok op => (lexWords ws).map (fun r => op :: r)
    | .error e => .error e

/-- Rust `str::split_whitespace`: the maximal nonempty runs of
non-whitespace characters of a line, in order. -/
def splitWhitespace (line : String) : List String :=
  (line.split Char.isWhitespace).filter (fun w => w ≠ "")

/-- `Lexer::lex`: iterate over `source.lines()` (split at `'\n'`; the
`'\r'` of a `"\r\n"` ending is whitespace and is discarded by
`split_whitespace` either way), split each line into whitespace-separated
words, and resolve each word in order. -/
def lex (source : String) : Except String (List Op) :=
  lexWords (((source.split (fun c => c = '\n')).map splitWhitespace).flatten)

/-- The sixteen spellings that `Op::from_str` recognizes as mnemonics;
every other word falls through to the `VALUE` arm. -/
def knownSpellings : List String :=
  ["MSTORE", "mstore", "MLOAD", "mload", "CREATE", "create",
   "EXTCODECOPY", "extcodecopy", "PUSH1", "push1", "POP", "pop",
   "DUP1", "dup1", "SWAP1", "swap1"]

/-- One iteration of the `Parser::parse` loop that falls through to the
next iteration, viewed as a relation between the suffix of the token
vector at the current cursor and the suffix at the next iteration's
cursor.  The `PUSH1`-with-`VALUE`-operand arm and the catch-all arm both
advance the cursor by two; the remaining arms panic and do not step. -/
inductive Step : List Op → List Op → Prop
  | push (val : String) (rest : List Op) :
      Step (.PUSH1 :: .VALUE val :: rest) rest
  | skip (t x : Op) (rest : List Op) :
      t ≠ .PUSH1 → Step (t :: x :: rest) rest

/-- The cursor of `Parser::parse`, started on the first list, eventually
stands at the head of the second list. -/
def Reaches : List Op → List Op → Prop :=
  Relation.ReflTransGen Step

/-- An error arising at the current iteration's suffix propagates to the
whole run: every continuation of `parse` keeps an inner `.error`. -/
theorem parse_error_of_step {a b : List Op} (h : Step a b)
    (hb : ∃ e, parse b = .error e) : ∃ e, parse a = .error e := by
  obtain ⟨e, he⟩ := hb
  cases h with
  | push val rest =>
    cases hop : opcodeParser (Nat.repr Op.PUSH1.as_opcode) (trimStart0x val) with
    | some code =>
      exact ⟨e, by simp [parse, hop, he, Except.map]⟩
    | none =>
      exact ⟨"unwrap on ParseIntError", by simp [parse, hop]⟩
  | skip t x rest ht =>
    cases t with
    | PUSH1 => exact absurd rfl ht
    | MSTORE => exact ⟨e, by simp [parse, he, Except.map]⟩
    | MLOAD => exact ⟨e, by simp [parse, he, Except.map]⟩
    | CREATE => exact ⟨e, by simp [parse, he, Except.map]⟩
    | EXTCODECOPY => exact ⟨e, by simp [parse, he, Except.map]⟩
    | POP => exact ⟨e, by simp [parse, he, Except.map]⟩
    | DUP1 => exact ⟨e, by simp [parse, he, Except.map]⟩
    | SWAP1 => exact ⟨e, by simp [parse, he, Except.map]⟩
    | VALUE s => exact ⟨e, by simp [parse, he, Except.map]⟩

/-- Errors propagate along any chain of loop iterations. -/
theorem parse_error_of_reaches {a b : List Op} (h : Reaches a b)
    (hb : ∃ e, parse b = .error e) : ∃ e, parse a = .error e := by
  induction h using Relation.ReflTransGen.head_induction_on with
  | refl => exact hb
  | head hstep _ ih => exact parse_error_of_step hstep ih

example : parse [] = .ok [] := rfl
example : parse [.POP] = .ok [50] := rfl
example : parse [.POP, .DUP1] = .ok [50] := rfl
example : parse [.POP, .DUP1, .SWAP1] = .ok [50, 90] := rfl
example : parse [.PUSH1, .VALUE "0x01"] = .ok [6001] := rfl
example : parse [.PUSH1, .VALUE "2a"] = .error "unwrap on ParseIntError" := rfl
example : parse [.PUSH1] = .error "PANICED" := rfl
example : parse [.PUSH1, .POP] = .error "PANIC" := rfl
example : parse [.POP, .PUSH1] = .ok [50] := rfl
example : Op.from_str "Pop" = .ok (.VALUE "Pop") := rfl

/-- `Op::from_str` returns `Ok` in every branch. -/
theorem from_str_total (w : String) : ∃ op, Op.from_str w = .ok op := by
  unfold Op.from_str
  split_ifs <;> exact ⟨_, rfl⟩

/-- The word loop of `Lexer::lex` never hits the `Err`-panic arm. -/
theorem lexWords_total (ws : List String) : ∃ ops, lexWords ws = .ok ops := by
  induction ws with
  | nil => exact ⟨[], rfl⟩
  | cons w ws ih =>
    obtain ⟨ops, hops⟩ := ih
    obtain ⟨op, hop⟩ := from_str_total w
    exact ⟨op :: ops, by simp [lexWords, hop, hops, Except.map]⟩

/-- C1: the claim says a sequence of only non-operand instructions emits
exactly one encoding per token with no cursor skips.  Evaluating the code
on `[pop, dup1]`: the extra `self.next()` in the catch-all arm skips
`dup1`, so the output is the single entry `[50]`, not the two entries
`[50, 80]` the claim requires. -/
theorem c1_nonoperand_pair_skips_second :
    parse [Op.POP, Op.DUP1] = .ok [50] ∧
      (parse [Op.POP, Op.DUP1]).map List.length = .ok 1 ∧
      (Except.ok 1 : Except String Nat) ≠ .ok 2 :=
  ⟨rfl, rfl, fun h => absurd (Except.ok.inj h) (by decide)⟩

/-- C2 counterexample: on `[push1, Literal "0x01"]` the emitter pushes a
single combined entry (the decimal parse of `"60" ++ "01"`, i.e. `6001`),
not a two-element sequence. -/
theorem c2_counterexample :
    parse [Op.PUSH1, Op.VALUE "0x01"] = .ok [6001] ∧
      (parse [Op.PUSH1, Op.VALUE "0x01"]).map List.length = .ok 1 ∧
      (Except.ok 1 : Except String Nat) ≠ .ok 2 :=
  ⟨rfl, rfl, fun h => absurd (Except.ok.inj h) (by decide)⟩

/-- C2 amended: `[push1, Literal "0x01"]` emits the one-element sequence
`[6001]`: the `0x` prefix is stripped, the digits are appended to the
push encoding's decimal rendering `"60"`, and the concatenation `"6001"`
is parsed back as a single `u32` entry. -/
theorem c2_push1_emits_single_combined_entry :
    trimStart0x "0x01" = "01" ∧
      opcodeParser (Nat.repr Op.PUSH1.as_opcode) "01" = some 6001 ∧
      parse [Op.PUSH1, Op.VALUE "0x01"] = .ok [6001] :=
  ⟨rfl, rfl, rfl⟩

/-- C3: the claim says operand digits are emitted verbatim with no radix
validation, so `[push1, Literal "2a"]` should yield the digits `2a`.  The
code instead feeds `"60" ++ "2a"` to `str::parse::<u32>`, a decimal
parser, which rejects `'a'`; the `.unwrap()` panics and the run aborts. -/
theorem c3_hex_operand_panics :
    opcodeParser (Nat.repr Op.PUSH1.as_opcode) (trimStart0x "2a") = none ∧
      parse [Op.PUSH1, Op.VALUE "2a"] = .error "unwrap on ParseIntError" :=
  ⟨rfl, rfl⟩

/-- C4: the claim says every recognized mnemonic's emitted entry is its
canonical two-hex-digit code.  Six tags store the two hex digits as a
decimal numeral (`pop → 50` prints `"50"`), but `CREATE` and
`EXTCODECOPY` store the numeric literals `0xF0 = 240` and `0x3C = 60`:
`create` is emitted as `240` (printed `"240"`, not `"f0"`) and
`extcodecopy` as `60`, colliding with `push1`'s encoding instead of
giving `"3c"`. -/
theorem c4_create_extcodecopy_not_hex_digits :
    Op.CREATE.as_opcode = 240 ∧
      Nat.repr Op.CREATE.as_opcode = "240" ∧
      Op.EXTCODECOPY.as_opcode = 60 ∧
      Op.EXTCODECOPY.as_opcode = Op.PUSH1.as_opcode ∧
      parse [Op.CREATE] = .ok [240] ∧
      parse [Op.EXTCODECOPY] = .ok [60] :=
  ⟨rfl, rfl, rfl, rfl, rfl, rfl⟩

/-- C5 counterexample: resolution is not case-insensitive.  The
mixed-case spelling `"Pop"` matches no arm of `Op::from_str` and falls
through to `Literal`, so it gets the sentinel encoding `0` rather than
`pop`'s tag and encoding `50`. -/
theorem c5_counterexample :
    Op.from_str "Pop" = .ok (Op.VALUE "Pop") ∧
      Op.from_str "POP" = .ok Op.POP ∧
      Op.from_str "pop" = .ok Op.POP ∧
      (Op.VALUE "Pop").as_opcode ≠ Op.POP.as_opcode :=
  ⟨rfl, rfl, rfl, by decide⟩

/-- C5 amended: for each recognized mnemonic, exactly the all-uppercase
and the all-lowercase spellings resolve to the same canonical tag (and
hence the same fixed encoding); other case variants are Literals. -/
theorem c5_upper_and_lower_case_agree :
    (Op.from_str "MSTORE" = .ok Op.MSTORE ∧ Op.from_str "mstore" = .ok Op.MSTORE) ∧
      (Op.from_str "MLOAD" = .ok Op.MLOAD ∧ Op.from_str "mload" = .ok Op.MLOAD) ∧
      (Op.from_str "CREATE" = .ok Op.CREATE ∧ Op.from_str "create" = .ok Op.CREATE) ∧
      (Op.from_str "EXTCODECOPY" = .ok Op.EXTCODECOPY ∧
        Op.from_str "extcodecopy" = .ok Op.EXTCODECOPY) ∧
      (Op.from_str "PUSH1" = .ok Op.PUSH1 ∧ Op.from_str "push1" = .ok Op.PUSH1) ∧
      (Op.from_str "POP" = .ok Op.POP ∧ Op.from_str "pop" = .ok Op.POP) ∧
      (Op.from_str "DUP1" = .ok Op.DUP1 ∧ Op.from_str "dup1" = .ok Op.DUP1) ∧
      (Op.from_str "SWAP1" = .ok Op.SWAP1 ∧ Op.from_str "swap1" = .ok Op.SWAP1) :=
  ⟨⟨rfl, rfl⟩, ⟨rfl, rfl⟩, ⟨rfl, rfl⟩, ⟨rfl, rfl⟩,
    ⟨rfl, rfl⟩, ⟨rfl, rfl⟩, ⟨rfl, rfl⟩, ⟨rfl, rfl⟩⟩

/-- C6 counterexample: in `[pop, push1]` the trailing `push-one-byte` is
the last token, yet the run does not abort: the skip after `pop` drops
the `push1` and the emitter returns `[50]`. -/
theorem c6_counterexample : parse [Op.POP, Op.PUSH1] = .ok [50] := rfl

/-- C6 amended: whenever the cursor actually reaches a `push-one-byte`
that is the last token (end of sequence in the Expect-Operand state), the
whole run aborts with an error: no byte sequence, no zero-filled operand,
no partial output. -/
theorem c6_reached_trailing_push1_aborts (ts : List Op)
    (h : Reaches ts [Op.PUSH1]) : ∃ e, parse ts = .error e :=
  parse_error_of_reaches h ⟨"PANICED", rfl⟩

/-- C6 witness: `[pop, pop, push1]` steps (skipping the second `pop`) to
the suffix `[push1]`, so the whole run errors. -/
theorem c6_witness : ∃ e, parse [Op.POP, Op.POP, Op.PUSH1] = .error e :=
  c6_reached_trailing_push1_aborts [Op.POP, Op.POP, Op.PUSH1]
    (Relation.ReflTransGen.head (Step.skip Op.POP Op.POP [Op.PUSH1] (by decide))
      Relation.ReflTransGen.refl)

/-- C7 counterexample: `[pop, push1, pop]` contains a `push-one-byte`
immediately followed by a recognized instruction, yet the run succeeds
with `[50, 50]`: the `push1` sits at a skipped cursor position and is
never checked. -/
theorem c7_counterexample : parse [Op.POP, Op.PUSH1, Op.POP] = .ok [50, 50] := rfl

/-- C7 amended: whenever the cursor actually reaches a `push-one-byte`
whose immediately following token is a recognized instruction rather than
a Literal, the entire translation aborts with an error — no partial byte
sequence, no resynchronization. -/
theorem c7_reached_push1_nonliteral_operand_aborts
    (ts : List Op) (t : Op) (rest : List Op)
    (hr : Reaches ts (Op.PUSH1 :: t :: rest))
    (ht : ∀ s, t ≠ Op.VALUE s) : ∃ e, parse ts = .error e := by
  refine parse_error_of_reaches hr ⟨"PANIC", ?_⟩
  cases t with
  | VALUE s => exact absurd rfl (ht s)
  | MSTORE => rfl
  | MLOAD => rfl
  | CREATE => rfl
  | EXTCODECOPY => rfl
  | PUSH1 => rfl
  | POP => rfl
  | DUP1 => rfl
  | SWAP1 => rfl

/-- C7 witness: the run on `[push1, pop]` aborts. -/
theorem c7_witness : ∃ e, parse [Op.PUSH1, Op.POP] = .error e :=
  c7_reached_push1_nonliteral_operand_aborts [Op.PUSH1, Op.POP] Op.POP []
    Relation.ReflTransGen.refl (fun _ h => Op.noConfusion h)

/-- C8: mnemonic resolution is total — `Op::from_str` returns `Ok` on
every word, any word outside the sixteen recognized spellings resolves to
`Literal` carrying the word itself, and consequently `Lexer::lex` (which
panics only on an `Err` from resolution) succeeds on every source
text. -/
theorem c8_resolution_never_fails :
    (∀ w, ∃ op, Op.from_str w = .ok op) ∧
      (∀ w, w ∉ knownSpellings → Op.from_str w = .ok (Op.VALUE w)) ∧
      (∀ source, ∃ ops, lex source = .ok ops) := by
  refine ⟨from_str_total, ?_, fun source => lexWords_total _⟩
  intro w hw
  simp only [knownSpellings, List.mem_cons, List.not_mem_nil, or_false, not_or] at hw
  obtain ⟨n1, n2, n3, n4, n5, n6, n7, n8, n9, n10, n11, n12, n13, n14, n15, n16⟩ := hw
  unfold Op.from_str
  split_ifs with h1 h2 h3 h4 h5 h6 h7 h8
  · rcases h1 with h | h
    exacts [absurd h n1, absurd h n2]
  · rcases h2 with h | h
    exacts [absurd h n3, absurd h n4]
  · rcases h3 with h | h
    exacts [absurd h n5, absurd h n6]
  · rcases h4 with h | h
    exacts [absurd h n7, absurd h n8]
  · rcases h5 with h | h
    exacts [absurd h n9, absurd h n10]
  · rcases h6 with h | h
    exacts [absurd h n11, absurd h n12]
  · rcases h7 with h | h
    exacts [absurd h n13, absurd h n14]
  · rcases h8 with h | h
    exacts [absurd h n15, absurd h n16]
  · rfl

/-- C8 witness: the unrecognized word `"hello"` resolves to a Literal. -/
theorem c8_witness : Op.from_str "hello" = .ok (Op.VALUE "hello") :=
  c8_resolution_never_fails.2.1 "hello" (by decide)

/-- C9: a Literal dequeued by the emitter on its own (heading the
remaining token stream, hence not consumed as a `push1` operand) is never
rejected: the emitter appends that token's own `as_opcode` encoding and
the translation continues with the rest of the stream (the token after
the Literal being skipped by the cursor like after any non-`push1`
head). -/
theorem c9_standalone_literal_not_rejected (s : String) (rest : List Op) :
    parse (Op.VALUE s :: rest) =
      (parse (rest.drop 1)).map (fun r => (Op.VALUE s).as_opcode :: r) := by
  cases rest <;> rfl

/-- C9 witness: a standalone Literal at the head of the stream emits and
the run goes on. -/
theorem c9_witness :
    parse [Op.VALUE "deadbeef"] =
      (parse ([].drop 1)).map (fun r => (Op.VALUE "deadbeef").as_opcode :: r) :=
  c9_standalone_literal_not_rejected "deadbeef" []

/-- C10: a Literal emitted standalone contributes the sentinel encoding
`0` (the `_ => 0` arm of `Op::as_opcode`), and the emission is
independent of the Literal's payload string: the payload text never
reaches the output. -/
theorem c10_standalone_literal_emits_sentinel_zero :
    (∀ s, (Op.VALUE s).as_opcode = 0) ∧
      (∀ (s₁ s₂ : String) (rest : List Op),
        parse (Op.VALUE s₁ :: rest) = parse (Op.VALUE s₂ :: rest)) :=
  ⟨fun _ => rfl, fun s₁ s₂ rest => by cases rest <;> rfl⟩

end Easm
